import Mathlib

/-!
Verification of the core logic of `src/server.py` (instagram-dms-mcp).

The Python source is shallowly embedded: pure functions become Lean
functions; the environment, the filesystem, the child process and the
HTTP layer become explicit values (`Env`, `SupState`, `World`,
`HttpResult`) threaded through the embedded code; fallible operations
return `Option`.  Library calls made by the source (`json.loads`,
`json.dumps`, `base64.b64decode`, `bytes.decode("utf-8")`) are modelled
by executable Lean functions following the CPython semantics that the
source relies on.
-/

set_option maxRecDepth 4096

/-! ## A model of Python JSON values

`json.loads` yields nested dicts/lists/strings/numbers/booleans/None.
Numbers keep their source token (the embedding never needs float
arithmetic, only tokens and zero-ness). -/

inductive Json where
  | str (s : String)
  | num (token : String)
  | bool (b : Bool)
  | null
  | arr (items : List Json)
  | obj (fields : List (String × Json))

/-- Python dict lookup (`d.get(k)`) over the assoc-list representation. -/
def dlookup {α : Type} : List (String × α) → String → Option α
  | [], _ => none
  | (k, v) :: rest, key => if k = key then some v else dlookup rest key

/-- Python dict insertion: replace in place if the key exists, else append.
Used by the JSON object parser so that duplicate keys behave like dicts. -/
def dictInsert (kvs : List (String × Json)) (k : String) (v : Json) : List (String × Json) :=
  match kvs with
  | [] => [(k, v)]
  | (k2, v2) :: rest => if k2 = k then (k2, v) :: rest else (k2, v2) :: dictInsert rest k v

/-! ## `json.loads`: a parser following CPython's json module

Grammar: RFC JSON plus the CPython extensions the module accepts by
default (`NaN`, `Infinity`, `-Infinity`).  Whitespace is ` \t\n\r`;
raw control characters inside strings are rejected (strict mode);
duplicate object keys follow dict semantics.  One deliberate model
restriction: `\uXXXX` escapes that denote lone surrogates are rejected
(CPython keeps them in the `str`; Lean `Char` has no surrogates) — no
claim exercises such inputs. -/

def isJsonWs (c : Char) : Bool := c == ' ' || c == '\t' || c == '\n' || c == '\r'

def skipWs : List Char → List Char
  | [] => []
  | c :: cs => if isJsonWs c then skipWs cs else c :: cs

def hexVal (c : Char) : Option Nat :=
  if '0' ≤ c ∧ c ≤ '9' then some (c.toNat - 48)
  else if 'a' ≤ c ∧ c ≤ 'f' then some (c.toNat - 87)
  else if 'A' ≤ c ∧ c ≤ 'F' then some (c.toNat - 55)
  else none

def parseStrChars : List Char → List Char → Option (String × List Char)
  | acc, '"' :: rest => some (String.mk acc.reverse, rest)
  | acc, '\\' :: esc =>
    match esc with
    | '"' :: r => parseStrChars ('"' :: acc) r
    | '\\' :: r => parseStrChars ('\\' :: acc) r
    | '/' :: r => parseStrChars ('/' :: acc) r
    | 'b' :: r => parseStrChars ('\x08' :: acc) r
    | 'f' :: r => parseStrChars ('\x0c' :: acc) r
    | 'n' :: r => parseStrChars ('\n' :: acc) r
    | 'r' :: r => parseStrChars ('\r' :: acc) r
    | 't' :: r => parseStrChars ('\t' :: acc) r
    | 'u' :: h1 :: h2 :: h3 :: h4 :: r =>
      match hexVal h1, hexVal h2, hexVal h3, hexVal h4 with
      | some a, some b, some c, some d =>
        let n := ((a * 16 + b) * 16 + c) * 16 + d
        if 0xd800 ≤ n ∧ n ≤ 0xdbff then
          match r with
          | '\\' :: 'u' :: g1 :: g2 :: g3 :: g4 :: r2 =>
            match hexVal g1, hexVal g2, hexVal g3, hexVal g4 with
            | some e1, some e2, some e3, some e4 =>
              let n2 := ((e1 * 16 + e2) * 16 + e3) * 16 + e4
              if 0xdc00 ≤ n2 ∧ n2 ≤ 0xdfff then
                parseStrChars (Char.ofNat (0x10000 + (n - 0xd800) * 1024 + (n2 - 0xdc00)) :: acc) r2
              else none
            | _, _, _, _ => none
          | _ => none
        else if 0xdc00 ≤ n ∧ n ≤ 0xdfff then none
        else parseStrChars (Char.ofNat n :: acc) r
      | _, _, _, _ => none
    | _ => none
  | acc, c :: rest => if c.toNat < 0x20 then none else parseStrChars (c :: acc) rest
  | _, [] => none

/-- Match a literal token (such as `null`) at the head of the input. -/
def stripLit : List Char → List Char → Option (List Char)
  | [], cs => some cs
  | l :: ls, c :: cs => if c = l then stripLit ls cs else none
  | _ :: _, [] => none

/-- The integer part of the number regex: `0` alone or a nonzero digit
followed by digits. -/
def parseIntPart : List Char → Option (List Char × List Char)
  | '0' :: rest => some (['0'], rest)
  | c :: rest =>
    if c.isDigit ∧ c ≠ '0' then
      let p := rest.span Char.isDigit
      some (c :: p.1, p.2)
    else none
  | [] => none

/-- Optional fractional part `(\.\d+)?`. -/
def parseFrac (cs : List Char) : List Char × List Char :=
  match cs with
  | '.' :: r =>
    let p := r.span Char.isDigit
    if p.1.isEmpty then ([], cs) else ('.' :: p.1, p.2)
  | _ => ([], cs)

/-- Optional exponent part `([eE][-+]?\d+)?`. -/
def parseExp (cs : List Char) : List Char × List Char :=
  match cs with
  | e :: r =>
    if e == 'e' || e == 'E' then
      match r with
      | s :: r2 =>
        if s == '+' || s == '-' then
          let p := r2.span Char.isDigit
          if p.1.isEmpty then ([], cs) else (e :: s :: p.1, p.2)
        else
          let p := r.span Char.isDigit
          if p.1.isEmpty then ([], cs) else (e :: p.1, p.2)
      | [] => ([], cs)
    else ([], cs)
  | [] => ([], cs)

def parseNumber (cs : List Char) : Option (String × List Char) :=
  let sp : List Char × List Char := match cs with | '-' :: r => (['-'], r) | _ => ([], cs)
  match parseIntPart sp.2 with
  | none => none
  | some (ip, cs2) =>
    let fp := parseFrac cs2
    let ep := parseExp fp.2
    some (String.mk (sp.1 ++ ip ++ fp.1 ++ ep.1), ep.2)

mutual

def parseVal : Nat → List Char → Option (Json × List Char)
  | 0, _ => none
  | fuel + 1, cs0 =>
    let cs := skipWs cs0
    match cs with
    | '"' :: r =>
      match parseStrChars [] r with
      | some (s, r2) => some (.str s, r2)
      | none => none
    | '\x7b' :: r =>
      match skipWs r with
      | '\x7d' :: r2 => some (.obj [], r2)
      | r1 => parseObjItems fuel r1 []
    | '[' :: r =>
      match skipWs r with
      | ']' :: r2 => some (.arr [], r2)
      | r1 => parseArrItems fuel r1 []
    | _ =>
      match stripLit ['n', 'u', 'l', 'l'] cs with
      | some r => some (.null, r)
      | none =>
      match stripLit ['t', 'r', 'u', 'e'] cs with
      | some r => some (.bool true, r)
      | none =>
      match stripLit ['f', 'a', 'l', 's', 'e'] cs with
      | some r => some (.bool false, r)
      | none =>
      match parseNumber cs with
      | some (t, r) => some (.num t, r)
      | none =>
      match stripLit ['N', 'a', 'N'] cs with
      | some r => some (.num "NaN", r)
      | none =>
      match stripLit ['I', 'n', 'f', 'i', 'n', 'i', 't', 'y'] cs with
      | some r => some (.num "Infinity", r)
      | none =>
      match stripLit ['-', 'I', 'n', 'f', 'i', 'n', 'i', 't', 'y'] cs with
      | some r => some (.num "-Infinity", r)
      | none => none

def parseArrItems : Nat → List Char → List Json → Option (Json × List Char)
  | 0, _, _ => none
  | fuel + 1, cs, acc =>
    match parseVal fuel cs with
    | none => none
    | some (v, r) =>
      match skipWs r with
      | ',' :: r2 => parseArrItems fuel (skipWs r2) (v :: acc)
      | ']' :: r2 => some (.arr (v :: acc).reverse, r2)
      | _ => none

def parseObjItems : Nat → List Char → List (String × Json) → Option (Json × List Char)
  | 0, _, _ => none
  | fuel + 1, cs, acc =>
    match cs with
    | '"' :: r =>
      match parseStrChars [] r with
      | none => none
      | some (k, r2) =>
        match skipWs r2 with
        | ':' :: r3 =>
          match parseVal fuel (skipWs r3) with
          | none => none
          | some (v, r4) =>
            let acc2 := dictInsert acc k v
            match skipWs r4 with
            | ',' :: r5 => parseObjItems fuel (skipWs r5) acc2
            | '\x7d' :: r5 => some (.obj acc2, r5)
            | _ => none
        | _ => none
    | _ => none

end

/-- Model of `json.loads`: parse a complete JSON document (surrounding
whitespace allowed, trailing data rejected).  `none` models a raised
`JSONDecodeError`. -/
def jsonParse (s : String) : Option Json :=
  match parseVal (s.length * 2 + 8) s.data with
  | some (v, rest) => if (skipWs rest).isEmpty then some v else none
  | none => none

/-! ## `json.dumps` for a flat dict of strings

`get_cookies_json` only ever dumps `dict[str, str]`; the model renders
exactly CPython's default output for that shape (separators `", "` and
`": "`, `ensure_ascii=True` with lowercase hex escapes). -/

def hexDigitLower (n : Nat) : Char := if n < 10 then Char.ofNat (48 + n) else Char.ofNat (87 + n)

def hex4 (n : Nat) : String :=
  String.mk [hexDigitLower (n / 4096 % 16), hexDigitLower (n / 256 % 16),
             hexDigitLower (n / 16 % 16), hexDigitLower (n % 16)]

def escJsonChar (c : Char) : String :=
  if c = '"' then "\\\""
  else if c = '\\' then "\\\\"
  else if c = '\n' then "\\n"
  else if c = '\r' then "\\r"
  else if c = '\t' then "\\t"
  else if c = '\x08' then "\\b"
  else if c = '\x0c' then "\\f"
  else if c.toNat < 0x20 then "\\u" ++ hex4 c.toNat
  else if c.toNat < 0x7f then String.mk [c]
  else if c.toNat < 0x10000 then "\\u" ++ hex4 c.toNat
  else
    "\\u" ++ hex4 (0xd800 + (c.toNat - 0x10000) / 1024) ++
    "\\u" ++ hex4 (0xdc00 + (c.toNat - 0x10000) % 1024)

def jsonDumpsStr (s : String) : String :=
  "\"" ++ String.join (s.data.map escJsonChar) ++ "\""

/-- Model of `json.dumps` applied to a flat `dict[str, str]` in insertion
order (CPython default formatting). -/
def json_dumps_obj (kvs : List (String × String)) : String :=
  "\x7b" ++ String.intercalate ", " (kvs.map fun kv => jsonDumpsStr kv.1 ++ ": " ++ jsonDumpsStr kv.2) ++ "\x7d"

/-! ## `base64.b64decode` (CPython, non-strict) and `bytes.decode("utf-8")` -/

def b64Val (c : Char) : Option Nat :=
  if 'A' ≤ c ∧ c ≤ 'Z' then some (c.toNat - 65)
  else if 'a' ≤ c ∧ c ≤ 'z' then some (c.toNat - 71)
  else if '0' ≤ c ∧ c ≤ '9' then some (c.toNat + 4)
  else if c = '+' then some 62
  else if c = '/' then some 63
  else none

/-- The loop of CPython's `binascii.a2b_base64` in non-strict mode:
characters outside the alphabet are discarded; `=` with at least two
data characters in the current quad and enough accumulated padding ends
processing; leftover data characters at the end are an error.
State: remaining input, quad position (0-3), pending bits, pad count,
output bytes in reverse. -/
def b64Loop : List Char → Nat → Nat → Nat → List Nat → Option (List Nat)
  | [], quadPos, _, _, out => if quadPos = 0 then some out.reverse else none
  | c :: cs, quadPos, leftchar, pads, out =>
    if c = '=' then
      if 2 ≤ quadPos ∧ 4 ≤ quadPos + (pads + 1) then some out.reverse
      else if 2 ≤ quadPos then b64Loop cs quadPos leftchar (pads + 1) out
      else b64Loop cs quadPos leftchar pads out
    else
      match b64Val c with
      | none => b64Loop cs quadPos leftchar pads out
      | some v =>
        match quadPos with
        | 0 => b64Loop cs 1 v 0 out
        | 1 => b64Loop cs 2 (v % 16) 0 ((leftchar * 4 + v / 16) :: out)
        | 2 => b64Loop cs 3 (v % 4) 0 ((leftchar * 16 + v / 4) :: out)
        | _ => b64Loop cs 0 0 0 ((leftchar * 64 + v) :: out)

/-- Model of `base64.b64decode` on a `str` argument: the implicit
`s.encode("ascii")` fails on any non-ASCII character, then the
non-strict binascii loop runs.  `none` models a raised exception. -/
def b64decodeBytes (s : String) : Option (List Nat) :=
  if s.data.all (fun c => c.toNat < 128) then b64Loop s.data 0 0 0 [] else none

/-- Strict UTF-8 decoding of a byte list (overlong encodings, surrogates
and values above 0x10FFFF rejected), modelling `bytes.decode("utf-8")`. -/
def utf8Dec : List Nat → List Char → Option String
  | [], acc => some (String.mk acc.reverse)
  | b :: bs, acc =>
    if b < 0x80 then utf8Dec bs (Char.ofNat b :: acc)
    else if 0xc2 ≤ b ∧ b ≤ 0xdf then
      match bs with
      | b2 :: bs2 =>
        if 0x80 ≤ b2 ∧ b2 ≤ 0xbf then
          utf8Dec bs2 (Char.ofNat ((b - 0xc0) * 64 + (b2 - 0x80)) :: acc)
        else none
      | [] => none
    else if 0xe0 ≤ b ∧ b ≤ 0xef then
      match bs with
      | b2 :: b3 :: bs2 =>
        let lo2 := if b = 0xe0 then 0xa0 else 0x80
        let hi2 := if b = 0xed then 0x9f else 0xbf
        if lo2 ≤ b2 ∧ b2 ≤ hi2 ∧ 0x80 ≤ b3 ∧ b3 ≤ 0xbf then
          utf8Dec bs2 (Char.ofNat ((b - 0xe0) * 4096 + (b2 - 0x80) * 64 + (b3 - 0x80)) :: acc)
        else none
      | _ => none
    else if 0xf0 ≤ b ∧ b ≤ 0xf4 then
      match bs with
      | b2 :: b3 :: b4 :: bs2 =>
        let lo2 := if b = 0xf0 then 0x90 else 0x80
        let hi2 := if b = 0xf4 then 0x8f else 0xbf
        if lo2 ≤ b2 ∧ b2 ≤ hi2 ∧ 0x80 ≤ b3 ∧ b3 ≤ 0xbf ∧ 0x80 ≤ b4 ∧ b4 ≤ 0xbf then
          utf8Dec bs2 (Char.ofNat ((b - 0xf0) * 0x40000 + (b2 - 0x80) * 4096 + (b3 - 0x80) * 64 + (b4 - 0x80)) :: acc)
        else none
      | _ => none
    else none

/-- `base64.b64decode(s).decode("utf-8")`, `none` on any raised exception. -/
def b64decodeUtf8 (s : String) : Option String :=
  (b64decodeBytes s).bind (fun bs => utf8Dec bs [])

/-! ## The environment and `get_cookies_json` (server.py lines 40-80)

`os.getenv(name, "")` makes an unset variable indistinguishable from an
empty one in every use the source makes of these values (truthiness
tests), so each variable is modelled as a `String` with `""` for
unset/empty. -/

structure Env where
  ig_session_id : String := ""
  ig_user_id : String := ""
  ig_csrf_token : String := ""
  ig_datr : String := ""
  ig_did : String := ""
  ig_mid : String := ""
  ig_cookies : String := ""
deriving DecidableEq

/-- Embedding of `get_cookies_json`: individual variables first
(required trio plus optional datr/ig_did/mid in source order), then the
`IG_COOKIES` fallback — base64-then-JSON-check, else raw JSON check,
else `None`; every exception in the fallback is swallowed. -/
def get_cookies_json (e : Env) : Option String :=
  if e.ig_session_id ≠ "" ∧ e.ig_user_id ≠ "" ∧ e.ig_csrf_token ≠ "" then
    let cookies :=
      [("sessionid", e.ig_session_id), ("ds_user_id", e.ig_user_id), ("csrftoken", e.ig_csrf_token)]
      ++ (if e.ig_datr ≠ "" then [("datr", e.ig_datr)] else [])
      ++ (if e.ig_did ≠ "" then [("ig_did", e.ig_did)] else [])
      ++ (if e.ig_mid ≠ "" then [("mid", e.ig_mid)] else [])
    some (json_dumps_obj cookies)
  else if e.ig_cookies ≠ "" then
    match b64decodeUtf8 e.ig_cookies with
    | some d =>
      if (jsonParse d).isSome then some d
      else if (jsonParse e.ig_cookies).isSome then some e.ig_cookies else none
    | none =>
      if (jsonParse e.ig_cookies).isSome then some e.ig_cookies else none
  else none

/-! ## Supervisor state and observable events (server.py lines 30-185)

The module globals `_gateway_process` and `_cookies_tempfile`, together
with the filesystem paths the supervisor touches, form the supervisor
state.  Side effects of the embedded code are recorded as an event
trace; `none`-free traces replace stdout/IO. -/

structure SupState where
  gateway_process : Option Unit
  cookies_tempfile : Option String
  files : List String
deriving DecidableEq

inductive Ev where
  | probe
  | readCreds
  | tempWrite (path : String)
  | launch
  | sleepSec
  | printMsg (msg : String)
  | terminate
  | kill
  | unlink (path : String)
deriving DecidableEq

/-- Result of one `httpx.get`/`httpx.post` call: a response with status
and body text, or one of the exception kinds the source distinguishes. -/
inductive ProbeRes where
  | resp (status : Nat) (body : String)
  | exc
deriving DecidableEq

/-- The oracle for one `start_gateway` invocation: probe outcomes by
probe index (0 = the initial "already running" probe, `i + 1` = the
probe of readiness-loop iteration `i`), the environment, the temp-file
name `tempfile.mkstemp` would produce, `poll()` liveness per iteration,
and the child's buffered output. -/
structure World where
  health : Nat → ProbeRes
  env : Env
  freshTemp : String
  childAlive : Nat → Bool
  childOutput : String

/-- Candidate gateway binary locations, in source order (two relative to
the script directory, one relative to the working directory). -/
def candidates : List String :=
  ["SCRIPTDIR/gateway/ig-gateway", "SCRIPTDIR/gateway/ig-gateway.exe", "CWD/gateway/ig-gateway"]

/-- Embedding of `find_gateway_binary`: first candidate that exists. -/
def find_gateway_binary (files : List String) : Option String :=
  candidates.find? (fun c => files.contains c)

/-- The initial "already running" check passes exactly on a response
with status 200 (an exception or any other status falls through). -/
def initialHealthy : ProbeRes → Bool
  | .resp st _ => st == 200
  | .exc => false

/-- One readiness-loop probe succeeds when the response has status 200,
its body parses as JSON, and the parsed value is a dict (otherwise
`resp.json()` or `data.get` raises inside the `try` and the attempt
fails).  Returns the dict on success. -/
def loopAttempt : ProbeRes → Option (List (String × Json))
  | .resp st body =>
    if st == 200 then
      match jsonParse body with
      | some (.obj kvs) => some kvs
      | _ => none
    else none
  | .exc => none

/-- Single-quoted Python string repr (quote-choice approximated to
always-single-quote; no claim observes it). -/
def escSingleQ (s : String) : String :=
  "\x27" ++ String.join (s.data.map fun c =>
    if c = '\\' then "\\\\" else if c.toNat = 39 then "\\\x27" else String.mk [c]) ++ "\x27"

mutual

/-- `repr()`-like rendering of a parsed-JSON value (container and float
renderings are approximations — no claim observes a non-string health
payload field). -/
def pyRepr : Json → String
  | .str s => escSingleQ s
  | .num t => t
  | .bool true => "True"
  | .bool false => "False"
  | .null => "None"
  | .arr l => "[" ++ String.intercalate ", " (pyReprList l) ++ "]"
  | .obj kvs => "\x7b" ++ String.intercalate ", " (pyReprKVs kvs) ++ "\x7d"

def pyReprList : List Json → List String
  | [] => []
  | j :: js => pyRepr j :: pyReprList js

def pyReprKVs : List (String × Json) → List String
  | [] => []
  | (k, v) :: rest => (escSingleQ k ++ ": " ++ pyRepr v) :: pyReprKVs rest

end

/-- Python `str()` of a parsed-JSON value as interpolated by an
f-string: strings render bare, other values via their repr. -/
def pyStr (j : Json) : String :=
  match j with
  | .str s => s
  | j2 => pyRepr j2

/-- The readiness wait of `start_gateway` (lines 144-164): up to `fuel`
attempts (30 in the source), one probe per iteration, then a liveness
check of the child, then a 1-second sleep.  Returns the outcome, the
reported identity value (`data.get("username", "unknown")`) on success,
and the event trace; fuel exhaustion is the timeout diagnostic printed
after the loop. -/
def waitLoop (w : World) (i : Nat) : Nat → Bool × Option Json × List Ev
  | 0 => (false, none, [.printMsg "Gateway timed out waiting for ready"])
  | fuel + 1 =>
    match loopAttempt (w.health (i + 1)) with
    | some kvs =>
      let uname := (dlookup kvs "username").getD (.str "unknown")
      (true, some uname, [.probe, .printMsg ("Gateway ready - logged in as @" ++ pyStr uname)])
    | none =>
      if w.childAlive i then
        let r := waitLoop w (i + 1) fuel
        (r.1, r.2.1, .probe :: .sleepSec :: r.2.2)
      else
        (false, none, [.probe, .printMsg ("Gateway failed to start:\n" ++ w.childOutput)])

def missingCookiesMsgs : List Ev :=
  [.printMsg "ERROR: Instagram cookies not set",
   .printMsg "Set these environment variables in your .env file:",
   .printMsg "  IG_SESSION_ID=...",
   .printMsg "  IG_USER_ID=...",
   .printMsg "  IG_CSRF_TOKEN=...",
   .printMsg "\nSee env.example for the full list"]

/-- Embedding of `start_gateway` (lines 97-164): already-running check,
credential assembly, temp-file write, binary lookup, launch, readiness
wait.  Result: (returned bool, final supervisor state, event trace). -/
def start_gateway (w : World) (s : SupState) : Bool × SupState × List Ev :=
  if initialHealthy (w.health 0) then
    (true, s, [.probe, .printMsg "Gateway already running"])
  else
    match get_cookies_json w.env with
    | none => (false, s, [Ev.probe, Ev.readCreds] ++ missingCookiesMsgs)
    | some _ =>
      let s1 : SupState :=
        { gateway_process := s.gateway_process, cookies_tempfile := some w.freshTemp,
          files := w.freshTemp :: s.files }
      match find_gateway_binary s1.files with
      | none =>
        (false, s1, [Ev.probe, Ev.readCreds, Ev.tempWrite w.freshTemp,
          Ev.printMsg "ERROR: Gateway binary not found. Run \x27cd gateway && ./build.sh\x27 first"])
      | some _ =>
        let s2 : SupState := { s1 with gateway_process := some () }
        let r := waitLoop w 0 30
        (r.1, s2, [Ev.probe, Ev.readCreds, Ev.tempWrite w.freshTemp,
          Ev.printMsg "Starting Instagram gateway...", Ev.launch] ++ r.2.2)

/-- Embedding of `stop_gateway` (lines 167-181): terminate (then kill on
wait timeout, chosen by `graceful`) and clear the child handle when one
is held; unlink and clear the temp-file path only when the path is set
(truthy) and the file exists. -/
def stop_gateway (graceful : Bool) (s : SupState) : SupState × List Ev :=
  let procEvs : List Ev :=
    match s.gateway_process with
    | some _ => [Ev.terminate] ++ (if graceful then [] else [Ev.kill])
    | none => []
  match s.cookies_tempfile with
  | some p =>
    if p ≠ "" ∧ p ∈ s.files then
      ({ gateway_process := none, cookies_tempfile := none, files := s.files.filter (fun q => q ≠ p) },
       procEvs ++ [Ev.unlink p])
    else ({ s with gateway_process := none }, procEvs)
  | none => ({ s with gateway_process := none }, procEvs)

def isProbe : Ev → Bool
  | .probe => true
  | _ => false

def isSleep : Ev → Bool
  | .sleepSec => true
  | _ => false

def countEv (p : Ev → Bool) : List Ev → Nat
  | [] => 0
  | e :: es => (if p e then 1 else 0) + countEv p es

/-- The per-iteration trace of `k` failed-but-alive readiness attempts. -/
def failTrail : Nat → List Ev
  | 0 => []
  | k + 1 => Ev.probe :: Ev.sleepSec :: failTrail k

/-! ## The gateway HTTP wrappers (server.py lines 188-233) -/

def GATEWAY_URL : String := "http://127.0.0.1:29391"

inductive HttpResult where
  | resp (status : Nat) (body : String)
  | timeoutExc
  | connectExc
  | otherExc (msg : String)
deriving DecidableEq

/-- The dict returned by `gateway_get`/`gateway_post`: `ok: false` with
optional status and an error string, or `ok: true` with a data value
(`Json.null` models Python `None`). -/
inductive GwRes where
  | failure (status : Option Nat) (error : String)
  | success (data : Json)

/-- Stands for `str(e)` of the `json.JSONDecodeError` raised by
`resp.json()`; the exact CPython message text is abstracted (no claim
depends on it), only that the call yields `ok: false` with some error
string. -/
def jsonDecodeErrorText (_body : String) : String := "JSONDecodeError"

/-- Embedding of `gateway_get`: status ≥ 400 is a structured failure
with status and raw body; otherwise the body must parse as JSON (a
parse failure is caught by the generic handler); timeout and connection
failures map to their fixed texts; any other exception to `str(e)`. -/
def gateway_get (r : HttpResult) : GwRes :=
  match r with
  | .resp st body =>
    if 400 ≤ st then .failure (some st) body
    else
      match jsonParse body with
      | some j => .success j
      | none => .failure none (jsonDecodeErrorText body)
  | .timeoutExc => .failure none "Gateway request timed out"
  | .connectExc => .failure none ("Could not connect to gateway at " ++ GATEWAY_URL)
  | .otherExc m => .failure none m

/-- Embedding of `gateway_post`: like `gateway_get`, but 204 is success
with `None` data, and a body that fails to parse on another 2xx/3xx
status is also success with `None` data (the nested try). -/
def gateway_post (r : HttpResult) : GwRes :=
  match r with
  | .resp st body =>
    if 400 ≤ st then .failure (some st) body
    else if st == 204 then .success Json.null
    else
      match jsonParse body with
      | some j => .success j
      | none => .success Json.null
  | .timeoutExc => .failure none "Gateway request timed out"
  | .connectExc => .failure none ("Could not connect to gateway at " ++ GATEWAY_URL)
  | .otherExc m => .failure none m

/-! ## `format_timestamp` and `get_inbox` (server.py lines 236-244, 271-305) -/

/-- Zero test of a JSON number token (mantissa all zero digits). -/
def numTokenIsZero (t : String) : Bool :=
  let cs := match t.data with | '-' :: r => r | cs => cs
  let mant := cs.takeWhile (fun c => c ≠ 'e' ∧ c ≠ 'E')
  !mant.isEmpty && mant.all (fun c => c = '0' ∨ c = '.')

/-- Python truthiness of a parsed-JSON value. -/
def pyTruthy : Json → Bool
  | .null => false
  | .bool b => b
  | .num t => !numTokenIsZero t
  | .str s => !s.isEmpty
  | .arr l => !l.isEmpty
  | .obj l => !l.isEmpty

/-- A number token that is a plain (optionally negative) integer. -/
def intTokenToInt (t : String) : Option Int :=
  let sp : Bool × List Char := match t.data with | '-' :: r => (true, r) | cs => (false, cs)
  if !sp.2.isEmpty && sp.2.all Char.isDigit then
    let n : Nat := sp.2.foldl (fun a c => a * 10 + (c.toNat - 48)) 0
    some (if sp.1 then -(n : Int) else (n : Int))
  else none

/-- Gregorian date from days since 1970-01-01 (proleptic, Hinnant's
civil-from-days), as used by `datetime.fromtimestamp(_, timezone.utc)`. -/
def civilFromDays (z0 : Int) : Int × Nat × Nat :=
  let z := z0 + 719468
  let era := Int.fdiv z 146097
  let doe := (z - era * 146097).toNat
  let yoe := (doe - doe / 1460 + doe / 36524 - doe / 146096) / 365
  let y : Int := (yoe : Int) + era * 400
  let doy := doe - (365 * yoe + yoe / 4 - yoe / 100)
  let mp := (5 * doy + 2) / 153
  let d := doy - (153 * mp + 2) / 5 + 1
  let m := if mp < 10 then mp + 3 else mp - 9
  (if m ≤ 2 then y + 1 else y, m, d)

def padNum (w n : Nat) : String :=
  let s := toString n
  String.mk (List.replicate (w - s.length) '0') ++ s

/-- `datetime.fromtimestamp(ms / 1000, tz=timezone.utc).isoformat()` for
an integer number of milliseconds; a year outside 1..9999 raises in
CPython, which `format_timestamp` turns into `""`. -/
def isoFromMs (ms : Int) : String :=
  let secs := Int.fdiv ms 1000
  let msr := (Int.fmod ms 1000).toNat
  let days := Int.fdiv secs 86400
  let sod := (Int.fmod secs 86400).toNat
  let ymd := civilFromDays days
  if ymd.1 < 1 ∨ 9999 < ymd.1 then ""
  else
    padNum 4 ymd.1.toNat ++ "-" ++ padNum 2 ymd.2.1 ++ "-" ++ padNum 2 ymd.2.2 ++ "T" ++
    padNum 2 (sod / 3600) ++ ":" ++ padNum 2 (sod % 3600 / 60) ++ ":" ++ padNum 2 (sod % 60) ++
    (if msr = 0 then "" else "." ++ padNum 3 msr ++ "000") ++ "+00:00"

/-- Embedding of `format_timestamp`: falsy input yields `""`; any value
on which the conversion raises (non-numbers, NaN/Infinity tokens,
out-of-range years) yields `""` via the bare except.  Fractional float
tokens are abstracted to `""` (no claim observes them; CPython would
render sub-millisecond digits). -/
def format_timestamp (ts : Json) : String :=
  if !pyTruthy ts then ""
  else
    match ts with
    | .num t =>
      match intTokenToInt t with
      | some ms => isoFromMs ms
      | none => ""
    | _ => ""

/-- One formatted conversation entry of `get_inbox` (the nested
`participant` dict is flattened into two fields). -/
structure InboxConv where
  thread_id : Json
  participant_username : Json
  participant_name : Json
  last_message : Json
  last_message_time : String
  message_count : Json

inductive InboxOut where
  | err (msg : String)
  | inbox (count : Nat) (conversations : List InboxConv)

/-- `dict.get(k, default)` on a JSON value; `none` models the
`AttributeError` raised when the value is not a dict. -/
def jgetD (j : Json) (k : String) (d : Json) : Option Json :=
  match j with
  | .obj kvs => some ((dlookup kvs k).getD d)
  | _ => none

/-- Python `xs[:limit]` on the parsed `threads` value.  Negative limits
count from the end; a non-list value raises (modelled as `none`; for a
string value CPython would instead raise on the later `.get`, equally
an uncaught exception). -/
def pySliceTo (i : Int) (j : Json) : Option (List Json) :=
  match j with
  | .arr l => some (if 0 ≤ i then l.take i.toNat else l.take (l.length - (-i).toNat))
  | _ => none

/-- The loop body of `get_inbox`: each thread must be a dict, and each
field is fetched with `.get` and its source default. -/
def formatThread (t : Json) : Option InboxConv :=
  match t with
  | .obj m =>
    some
      { thread_id := (dlookup m "thread_id").getD .null,
        participant_username := (dlookup m "participant_username").getD .null,
        participant_name := (dlookup m "participant_name").getD .null,
        last_message := (dlookup m "last_message_preview").getD .null,
        last_message_time := format_timestamp ((dlookup m "last_message_time").getD (.num "0")),
        message_count := (dlookup m "message_count").getD (.num "0") }
  | _ => none

/-- Embedding of `get_inbox`, parameterized by the `gateway_get
"/threads"` outcome.  `none` models an uncaught exception escaping the
tool body. -/
def get_inbox (limit : Int) (r : GwRes) : Option InboxOut :=
  match r with
  | .failure _ e => some (.err e)
  | .success data =>
    match jgetD data "threads" (.arr []) with
    | none => none
    | some threads =>
      match pySliceTo limit threads with
      | none => none
      | some ts =>
        match ts.mapM formatThread with
        | none => none
        | some convs => some (.inbox convs.length convs)

/-! ## Definitions written from the spec's words (for comparison only)

These are not translations of the source; they formalize phrases of the
specification so that the code's behaviour can be compared against
them. -/

/-- Modelled from the spec: "a well-formed bundle (a flat mapping of
string keys to string/absent values)". -/
def isBundleJson (s : String) : Bool :=
  match jsonParse s with
  | some (.obj kvs) =>
    kvs.all fun kv => match kv.2 with | .str _ => true | .null => true | _ => false
  | _ => false

/-- Modelled from the spec: the combined-value fallback chain exactly as
the claim states it — base64 decoding whose result is well-formed
BUNDLE JSON, else the raw value if it is well-formed JSON, else
unavailable. -/
def specC2Fallback (c : String) : Option String :=
  match b64decodeUtf8 c with
  | some d =>
    if isBundleJson d then some d
    else if (jsonParse c).isSome then some c else none
  | none => if (jsonParse c).isSome then some c else none

/-- Modelled from the spec: a returned bundle "contains all three
required keys (sessionid, ds_user_id, csrftoken) with non-empty string
values". -/
def hasRequiredKeys (s : String) : Bool :=
  match jsonParse s with
  | some (.obj kvs) =>
    (match dlookup kvs "sessionid" with | some (.str v) => !v.isEmpty | _ => false) &&
    (match dlookup kvs "ds_user_id" with | some (.str v) => !v.isEmpty | _ => false) &&
    (match dlookup kvs "csrftoken" with | some (.str v) => !v.isEmpty | _ => false)
  | _ => false

/-! ## Concrete scenario inputs used by the witness theorems -/

def envS : Env := ⟨"s1", "u1", "c1", "", "", "", ""⟩

def sEmpty : SupState := ⟨none, none, []⟩

def sBin : SupState := ⟨none, none, ["SCRIPTDIR/gateway/ig-gateway"]⟩

def wHealthy : World :=
  { health := fun _ => ProbeRes.resp 200 "\x7b\"status\": \"ok\"\x7d",
    env := ⟨"", "", "", "", "", "", ""⟩, freshTemp := "t.json",
    childAlive := fun _ => true, childOutput := "" }

def wDead : World :=
  { health := fun _ => ProbeRes.exc, env := envS, freshTemp := "tmp.json",
    childAlive := fun _ => false, childOutput := "boom" }

def kvsAlice : List (String × Json) := [("status", Json.str "ok"), ("username", Json.str "alice")]

def wAttempt3 : World :=
  { health := fun n =>
      if n = 3 then ProbeRes.resp 200 "\x7b\"status\": \"ok\", \"username\": \"alice\"\x7d"
      else ProbeRes.exc,
    env := ⟨"", "", "", "", "", "", ""⟩, freshTemp := "t.json",
    childAlive := fun _ => true, childOutput := "" }

def tsThreads : List Json :=
  [Json.obj [], Json.obj [("thread_id", Json.str "t2")], Json.obj []]

def dThreads : Json := Json.obj [("threads", Json.arr tsThreads)]

/-! ## Theorems -/

/-- C1: with all three required individual values present and
non-empty, `get_cookies_json` returns exactly the dump of the bundle
holding `sessionid`, `ds_user_id`, `csrftoken` mapped to those values,
followed by `datr` / `ig_did` / `mid` for exactly the optional values
that are present, and nothing else. -/
theorem get_cookies_json_required_assembles (e : Env)
    (h1 : e.ig_session_id ≠ "") (h2 : e.ig_user_id ≠ "") (h3 : e.ig_csrf_token ≠ "") :
    get_cookies_json e = some (json_dumps_obj
      ([("sessionid", e.ig_session_id), ("ds_user_id", e.ig_user_id), ("csrftoken", e.ig_csrf_token)]
       ++ (if e.ig_datr ≠ "" then [("datr", e.ig_datr)] else [])
       ++ (if e.ig_did ≠ "" then [("ig_did", e.ig_did)] else [])
       ++ (if e.ig_mid ≠ "" then [("mid", e.ig_mid)] else []))) := by
  unfold get_cookies_json
  rw [if_pos ⟨h1, h2, h3⟩]

/-- Witness for C1, the spec scenario: `sid="s1", uid="u1", csrf="c1"`,
no optional values, yields exactly the three-key bundle. -/
theorem get_cookies_json_required_assembles_witness :
    get_cookies_json ⟨"s1", "u1", "c1", "", "", "", ""⟩ =
      some "\x7b\"sessionid\": \"s1\", \"ds_user_id\": \"u1\", \"csrftoken\": \"c1\"\x7d" := by
  have h := get_cookies_json_required_assembles ⟨"s1", "u1", "c1", "", "", "", ""⟩
    (by decide) (by decide) (by decide)
  exact h.trans (by rfl)

/-- C2 counterexample: the claim requires the base64 branch to accept
only well-formed BUNDLE json, but the code accepts any valid JSON.
`"WzFd"` is base64 of `"[1]"` (valid JSON, not a bundle) and is itself
not JSON, so the claim's chain yields `none` while the code returns the
decoded `"[1]"`. -/
theorem get_cookies_json_fallback_counterexample :
    get_cookies_json ⟨"", "", "", "", "", "", "WzFd"⟩ = some "[1]"
    ∧ specC2Fallback "WzFd" = none := by
  exact ⟨rfl, rfl⟩

/-- C2 (amended): with a required individual value missing, the
fallback chain runs on the combined value — empty combined value gives
`none`; a base64-decodable value whose decoding is valid JSON (of ANY
shape, not only a bundle) is returned decoded; otherwise a combined
value that is itself valid JSON is returned as-is; otherwise `none`.
The embedded function is total, modelling that the source never
raises. -/
theorem get_cookies_json_fallback_chain (e : Env)
    (hmiss : e.ig_session_id = "" ∨ e.ig_user_id = "" ∨ e.ig_csrf_token = "") :
    (e.ig_cookies = "" → get_cookies_json e = none)
    ∧ (∀ d, e.ig_cookies ≠ "" → b64decodeUtf8 e.ig_cookies = some d →
        (jsonParse d).isSome = true → get_cookies_json e = some d)
    ∧ (e.ig_cookies ≠ "" →
        (∀ d, b64decodeUtf8 e.ig_cookies = some d → (jsonParse d).isSome = false) →
        (jsonParse e.ig_cookies).isSome = true → get_cookies_json e = some e.ig_cookies)
    ∧ (e.ig_cookies ≠ "" →
        (∀ d, b64decodeUtf8 e.ig_cookies = some d → (jsonParse d).isSome = false) →
        (jsonParse e.ig_cookies).isSome = false → get_cookies_json e = none) := by
  have hreq : ¬(e.ig_session_id ≠ "" ∧ e.ig_user_id ≠ "" ∧ e.ig_csrf_token ≠ "") := by
    rcases hmiss with h | h | h <;> simp [h]
  unfold get_cookies_json
  rw [if_neg hreq]
  refine ⟨fun hc => by simp [hc], ?_, ?_, ?_⟩
  · intro d hne hb hj
    rw [if_pos hne, hb]
    simp [hj]
  · intro hne hb hj
    rw [if_pos hne]
    cases hcase : b64decodeUtf8 e.ig_cookies with
    | none => simp [hj]
    | some d => simp [hb d hcase, hj]
  · intro hne hb hj
    rw [if_pos hne]
    cases hcase : b64decodeUtf8 e.ig_cookies with
    | none => simp [hj]
    | some d => simp [hb d hcase, hj]

/-- Witness for C2 (amended): `"e30="` is base64 of `"{}"`, which is
valid JSON, so with no required individual values the decoded text is
returned. -/
theorem get_cookies_json_fallback_chain_witness :
    get_cookies_json ⟨"", "", "", "", "", "", "e30="⟩ = some "\x7b\x7d" := by
  exact (get_cookies_json_fallback_chain ⟨"", "", "", "", "", "", "e30="⟩ (Or.inl rfl)).2.1
    "\x7b\x7d" (by decide) (by rfl) (by rfl)

/-- C3 counterexample: with only `IG_COOKIES="[0]"` set, the code
returns `"[0]"` (valid JSON, accepted by the raw-JSON fallback), which
is not a bundle containing the three required keys — the claimed
invariant does not cover the fallback paths. -/
theorem get_cookies_json_invariant_counterexample :
    get_cookies_json ⟨"", "", "", "", "", "", "[0]"⟩ = some "[0]"
    ∧ hasRequiredKeys "[0]" = false := by
  exact ⟨rfl, rfl⟩

/-- C3 (amended): the result of `get_cookies_json` is `none`, or a
bundle dumped from the individual variables — in which case it binds
the three required keys to their (non-empty) values — or a fallback
string that is only guaranteed to be valid JSON (required keys are not
checked on the fallback paths). -/
theorem get_cookies_json_shape (e : Env) :
    get_cookies_json e = none
    ∨ (∃ b, get_cookies_json e = some (json_dumps_obj b)
        ∧ dlookup b "sessionid" = some e.ig_session_id
        ∧ dlookup b "ds_user_id" = some e.ig_user_id
        ∧ dlookup b "csrftoken" = some e.ig_csrf_token
        ∧ e.ig_session_id ≠ "" ∧ e.ig_user_id ≠ "" ∧ e.ig_csrf_token ≠ "")
    ∨ (∃ s, get_cookies_json e = some s ∧ (jsonParse s).isSome = true) := by
  unfold get_cookies_json
  by_cases hreq : e.ig_session_id ≠ "" ∧ e.ig_user_id ≠ "" ∧ e.ig_csrf_token ≠ ""
  · rw [if_pos hreq]
    refine Or.inr (Or.inl ⟨_, rfl, ?_, ?_, ?_, hreq.1, hreq.2.1, hreq.2.2⟩) <;>
      simp [dlookup]
  · rw [if_neg hreq]
    by_cases hck : e.ig_cookies ≠ ""
    · rw [if_pos hck]
      cases hb : b64decodeUtf8 e.ig_cookies with
      | some d =>
        by_cases hj : (jsonParse d).isSome = true
        · exact Or.inr (Or.inr ⟨d, by simp [hj], hj⟩)
        · by_cases hjr : (jsonParse e.ig_cookies).isSome = true
          · refine Or.inr (Or.inr ⟨e.ig_cookies, ?_, hjr⟩)
            simp [Bool.not_eq_true] at hj
            simp [hj, hjr]
          · refine Or.inl ?_
            simp [Bool.not_eq_true] at hj hjr
            simp [hj, hjr]
      | none =>
        by_cases hjr : (jsonParse e.ig_cookies).isSome = true
        · exact Or.inr (Or.inr ⟨e.ig_cookies, by simp [hjr], hjr⟩)
        · refine Or.inl ?_
          simp [Bool.not_eq_true] at hjr
          simp [hjr]
    · rw [if_neg hck]
      exact Or.inl rfl

/-- C4 counterexample: from a state where the temp-file path is set but
the file does not exist on disk, the first teardown does NOT clear the
path (the source clears it only inside the `exists` branch), so the
claim's "child handle and temp-file path are cleared by the first" does
not hold from every state. -/
theorem stop_gateway_counterexample :
    (stop_gateway true ⟨none, some "f", []⟩).1.cookies_tempfile = some "f" := by
  rfl

/-- C4 (amended): teardown is idempotent from every state — the second
invocation returns the state unchanged with an empty event trace (no
work, and the embedded function is total, modelling "no error"); the
child handle is always cleared by the first invocation; the temp-file
path is cleared by the first invocation whenever the file still existed
on disk (in particular after a successful start); and after the first
invocation the temp file named by the pre-state path no longer
exists. -/
theorem stop_gateway_idempotent (g1 g2 : Bool) (s : SupState) :
    stop_gateway g2 (stop_gateway g1 s).1 = ((stop_gateway g1 s).1, [])
    ∧ (stop_gateway g1 s).1.gateway_process = none
    ∧ (∀ p, s.cookies_tempfile = some p → p ≠ "" → p ∈ s.files →
        (stop_gateway g1 s).1.cookies_tempfile = none)
    ∧ (∀ p, s.cookies_tempfile = some p → p ≠ "" → p ∉ (stop_gateway g1 s).1.files) := by
  obtain ⟨gp, tf, fl⟩ := s
  cases tf with
  | none =>
    exact ⟨rfl, rfl, fun p hp _ _ => Option.noConfusion hp, fun p hp _ => Option.noConfusion hp⟩
  | some p0 =>
    by_cases hcond : p0 ≠ "" ∧ p0 ∈ fl
    · have h1 : (stop_gateway g1 ⟨gp, some p0, fl⟩).1 =
          ⟨none, none, fl.filter (fun q => q ≠ p0)⟩ := by
        simp only [stop_gateway]
        rw [if_pos hcond]
      refine ⟨?_, ?_, fun p hp hne hmem => by rw [h1], fun p hp hne => ?_⟩
      · rw [h1]; rfl
      · rw [h1]
      · rw [h1]
        cases hp
        simp [List.mem_filter]
    · have h1 : (stop_gateway g1 ⟨gp, some p0, fl⟩).1 = ⟨none, some p0, fl⟩ := by
        simp only [stop_gateway]
        rw [if_neg hcond]
      refine ⟨?_, ?_, fun p hp hne hmem => ?_, fun p hp hne => ?_⟩
      · rw [h1]
        simp only [stop_gateway]
        rw [if_neg hcond]
      · rw [h1]
      · cases hp
        exact absurd ⟨hne, hmem⟩ hcond
      · rw [h1]
        cases hp
        intro hmem
        exact hcond ⟨hne, hmem⟩

/-- Witness for C4 (amended), at the post-start state: child handle
held and the temp file `"f"` present on disk.  The first teardown
clears the path and removes the file; the second is a no-op. -/
theorem stop_gateway_idempotent_witness :
    (stop_gateway true ⟨some (), some "f", ["f"]⟩).1.cookies_tempfile = none
    ∧ stop_gateway true (stop_gateway true ⟨some (), some "f", ["f"]⟩).1 =
        ((stop_gateway true ⟨some (), some "f", ["f"]⟩).1, [])
    ∧ "f" ∉ (stop_gateway true ⟨some (), some "f", ["f"]⟩).1.files := by
  have h := stop_gateway_idempotent true true ⟨some (), some "f", ["f"]⟩
  exact ⟨h.2.2.1 "f" rfl (by decide) (by simp), h.1, h.2.2.2 "f" rfl (by decide)⟩

/-- C5: when the initial health probe answers 200, `start_gateway`
returns `true` immediately — state unchanged, no credential read, no
temp-file write, no launch — and a second invocation under the same
condition does the same. -/
theorem start_gateway_idempotent_when_healthy (w1 w2 : World) (s : SupState) (b1 b2 : String)
    (h1 : w1.health 0 = ProbeRes.resp 200 b1) (h2 : w2.health 0 = ProbeRes.resp 200 b2) :
    start_gateway w1 s = (true, s, [Ev.probe, Ev.printMsg "Gateway already running"])
    ∧ start_gateway w2 (start_gateway w1 s).2.1 =
        (true, s, [Ev.probe, Ev.printMsg "Gateway already running"])
    ∧ Ev.launch ∉ (start_gateway w1 s).2.2
    ∧ Ev.launch ∉ (start_gateway w2 (start_gateway w1 s).2.1).2.2
    ∧ Ev.readCreds ∉ (start_gateway w1 s).2.2
    ∧ (∀ p, Ev.tempWrite p ∉ (start_gateway w1 s).2.2) := by
  have e1 : start_gateway w1 s = (true, s, [Ev.probe, Ev.printMsg "Gateway already running"]) := by
    unfold start_gateway
    rw [h1]
    rfl
  have e2 : start_gateway w2 s = (true, s, [Ev.probe, Ev.printMsg "Gateway already running"]) := by
    unfold start_gateway
    rw [h2]
    rfl
  rw [e1]
  refine ⟨rfl, e2, by simp, ?_, by simp, by simp⟩
  rw [e2]
  simp

/-- Witness for C5: a world whose gateway is already healthy. -/
theorem start_gateway_idempotent_when_healthy_witness :
    start_gateway wHealthy sEmpty = (true, sEmpty, [Ev.probe, Ev.printMsg "Gateway already running"])
    ∧ start_gateway wHealthy (start_gateway wHealthy sEmpty).2.1 =
        (true, sEmpty, [Ev.probe, Ev.printMsg "Gateway already running"]) := by
  have h := start_gateway_idempotent_when_healthy wHealthy wHealthy sEmpty
    "\x7b\"status\": \"ok\"\x7d" "\x7b\"status\": \"ok\"\x7d" rfl rfl
  exact ⟨h.1, h.2.1⟩

theorem countEv_append (p : Ev → Bool) (l1 l2 : List Ev) :
    countEv p (l1 ++ l2) = countEv p l1 + countEv p l2 := by
  induction l1 with
  | nil => simp [countEv]
  | cons e es ih => simp [countEv, ih]; omega

theorem countProbe_failTrail (k : Nat) : countEv isProbe (failTrail k) = k := by
  induction k with
  | zero => rfl
  | succ k ih =>
    simp [failTrail, countEv, isProbe, ih]
    omega

theorem countSleep_failTrail (k : Nat) : countEv isSleep (failTrail k) = k := by
  induction k with
  | zero => rfl
  | succ k ih =>
    simp [failTrail, countEv, isSleep, ih]
    omega

/-- Readiness loop, child-exit case: if the probes of iterations
`0..k` all fail, the child is alive before iteration `k` and found
exited at iteration `k < fuel`, the loop stops there with the captured
output in the diagnostic. -/
theorem waitLoop_exit (w : World) :
    ∀ (k i fuel : Nat), k < fuel →
    (∀ j, j ≤ k → loopAttempt (w.health (i + j + 1)) = none) →
    (∀ j, j < k → w.childAlive (i + j) = true) →
    w.childAlive (i + k) = false →
    waitLoop w i fuel =
      (false, none,
       failTrail k ++ [Ev.probe, Ev.printMsg ("Gateway failed to start:\n" ++ w.childOutput)]) := by
  intro k
  induction k with
  | zero =>
    intro i fuel hf hfail halive hdead
    match fuel, hf with
    | fuel + 1, _ =>
      have h0 := hfail 0 (Nat.le_refl 0)
      simp only [Nat.add_zero] at h0 hdead
      unfold waitLoop
      rw [h0, hdead]
      rfl
  | succ k ih =>
    intro i fuel hf hfail halive hdead
    match fuel, hf with
    | fuel + 1, hf =>
      have h0 := hfail 0 (Nat.zero_le _)
      have ha0 := halive 0 (Nat.succ_pos _)
      simp only [Nat.add_zero] at h0 ha0
      unfold waitLoop
      rw [h0, ha0]
      have hrec := ih (i + 1) fuel (by omega)
        (fun j hj => by
          have h := hfail (j + 1) (by omega)
          rwa [show i + (j + 1) + 1 = i + 1 + j + 1 by omega] at h)
        (fun j hj => by
          have h := halive (j + 1) (by omega)
          rwa [show i + (j + 1) = i + 1 + j by omega] at h)
        (by rwa [show i + (k + 1) = i + 1 + k by omega] at hdead)
      rw [hrec]
      rfl

/-- C6: if the child exits during the readiness wait before any
successful probe (all loop probes through iteration `k` fail, the child
is alive before `k` and exited at `k`), `start_gateway` returns
`false`, the trace carries the diagnostic built from the child's
captured output, and polling stops at that iteration: exactly `k + 2`
probes happen in total (the initial check plus `k + 1` loop probes). -/
theorem start_gateway_child_exit (w : World) (s : SupState) (k : Nat)
    (h0 : initialHealthy (w.health 0) = false)
    (hc : (get_cookies_json w.env).isSome = true)
    (hb : (find_gateway_binary (w.freshTemp :: s.files)).isSome = true)
    (hk : k < 30)
    (hfail : ∀ i, i ≤ k → loopAttempt (w.health (i + 1)) = none)
    (halive : ∀ i, i < k → w.childAlive i = true)
    (hdead : w.childAlive k = false) :
    (start_gateway w s).1 = false
    ∧ Ev.printMsg ("Gateway failed to start:\n" ++ w.childOutput) ∈ (start_gateway w s).2.2
    ∧ countEv isProbe (start_gateway w s).2.2 = k + 2 := by
  obtain ⟨cj, hcj⟩ := Option.isSome_iff_exists.mp hc
  obtain ⟨bin, hbin⟩ := Option.isSome_iff_exists.mp hb
  have hwl := waitLoop_exit w k 0 30 hk
    (fun j hj => by rw [show 0 + j + 1 = j + 1 by omega]; exact hfail j hj)
    (fun j hj => by rw [show 0 + j = j by omega]; exact halive j hj)
    (by rwa [show 0 + k = k by omega])
  unfold start_gateway
  rw [h0]
  simp only [Bool.false_eq_true, if_false, hcj, hbin, hwl]
  refine ⟨by simp, by simp, ?_⟩
  simp [countEv_append, countEv, isProbe, countProbe_failTrail]
  omega

/-- Witness for C6: child already exited at the first loop iteration,
every probe failing. -/
theorem start_gateway_child_exit_witness :
    (start_gateway wDead sBin).1 = false
    ∧ Ev.printMsg "Gateway failed to start:\nboom" ∈ (start_gateway wDead sBin).2.2
    ∧ countEv isProbe (start_gateway wDead sBin).2.2 = 2 := by
  have h := start_gateway_child_exit wDead sBin 0 rfl (by rfl) (by rfl) (by omega)
    (fun i _ => rfl) (fun i hi => absurd hi (by omega)) rfl
  exact ⟨h.1, h.2.1, h.2.2⟩

/-- Readiness loop, success case: if the probes of iterations `0..j-1`
fail with the child alive, and the probe of iteration `j < fuel`
succeeds with dict `kvs`, the loop returns `true` reporting
`kvs.get("username", "unknown")`, after exactly `j` one-second waits. -/
theorem waitLoop_success (w : World) :
    ∀ (j i fuel : Nat) (kvs : List (String × Json)), j < fuel →
    (∀ t, t < j → loopAttempt (w.health (i + t + 1)) = none) →
    (∀ t, t < j → w.childAlive (i + t) = true) →
    loopAttempt (w.health (i + j + 1)) = some kvs →
    waitLoop w i fuel =
      (true, some ((dlookup kvs "username").getD (Json.str "unknown")),
       failTrail j ++ [Ev.probe, Ev.printMsg ("Gateway ready - logged in as @" ++
         pyStr ((dlookup kvs "username").getD (Json.str "unknown")))]) := by
  intro j
  induction j with
  | zero =>
    intro i fuel kvs hf hfail halive hsucc
    match fuel, hf with
    | fuel + 1, _ =>
      simp only [Nat.add_zero] at hsucc
      unfold waitLoop
      rw [hsucc]
      rfl
  | succ j ih =>
    intro i fuel kvs hf hfail halive hsucc
    match fuel, hf with
    | fuel + 1, hf =>
      have h0 := hfail 0 (Nat.succ_pos _)
      have ha0 := halive 0 (Nat.succ_pos _)
      simp only [Nat.add_zero] at h0 ha0
      unfold waitLoop
      rw [h0, ha0]
      have hrec := ih (i + 1) fuel kvs (by omega)
        (fun t ht => by
          have h := hfail (t + 1) (by omega)
          rwa [show i + (t + 1) + 1 = i + 1 + t + 1 by omega] at h)
        (fun t ht => by
          have h := halive (t + 1) (by omega)
          rwa [show i + (t + 1) = i + 1 + t by omega] at h)
        (by rwa [show i + (j + 1) + 1 = i + 1 + j + 1 by omega] at hsucc)
      rw [hrec]
      rfl

/-- Readiness loop, timeout case: if every probe of the `fuel`
iterations fails with the child alive throughout, the loop ends with
the timeout diagnostic. -/
theorem waitLoop_timeout (w : World) :
    ∀ (fuel i : Nat),
    (∀ t, t < fuel → loopAttempt (w.health (i + t + 1)) = none) →
    (∀ t, t < fuel → w.childAlive (i + t) = true) →
    waitLoop w i fuel =
      (false, none, failTrail fuel ++ [Ev.printMsg "Gateway timed out waiting for ready"]) := by
  intro fuel
  induction fuel with
  | zero => intro i hfail halive; rfl
  | succ fuel ih =>
    intro i hfail halive
    have h0 := hfail 0 (Nat.succ_pos _)
    have ha0 := halive 0 (Nat.succ_pos _)
    simp only [Nat.add_zero] at h0 ha0
    unfold waitLoop
    rw [h0, ha0]
    have hrec := ih (i + 1)
      (fun t ht => by
        have h := hfail (t + 1) (by omega)
        rwa [show i + (t + 1) + 1 = i + 1 + t + 1 by omega] at h)
      (fun t ht => by
        have h := halive (t + 1) (by omega)
        rwa [show i + (t + 1) = i + 1 + t by omega] at h)
    rw [hrec]
    rfl

/-- Readiness loop probe bound: at most `fuel` probes ever happen. -/
theorem waitLoop_probe_bound (w : World) :
    ∀ (fuel i : Nat), countEv isProbe (waitLoop w i fuel).2.2 ≤ fuel := by
  intro fuel
  induction fuel with
  | zero => intro i; simp [waitLoop, countEv, isProbe]
  | succ fuel ih =>
    intro i
    unfold waitLoop
    cases hA : loopAttempt (w.health (i + 1)) with
    | some kvs => simp [countEv, isProbe]
    | none =>
      cases hAl : w.childAlive i with
      | true =>
        have := ih (i + 1)
        simp only [if_true]
        simp [countEv, isProbe]
        omega
      | false => simp [countEv, isProbe]

/-- C7: the readiness wait (instantiated in `start_gateway` as
`waitLoop w 0 30`) is a bounded, always-terminating loop (it is a total
function): (a) it performs at most `fuel` probes — 30 in the source;
(b) on the first successful probe, at iteration `j`, it returns Ready
reporting the username from the health payload, having slept about one
second after each of the `j` earlier failed attempts (`j` sleep events,
`j + 1` probes); (c) if all 30 attempts fail with the child alive, it
returns Failed with the timeout diagnostic after exactly 30 probes. -/
theorem readiness_wait_contract :
    (∀ (w : World) (i fuel : Nat), countEv isProbe (waitLoop w i fuel).2.2 ≤ fuel)
    ∧ (∀ (w : World) (j : Nat) (kvs : List (String × Json)), j < 30 →
        (∀ t, t < j → loopAttempt (w.health (t + 1)) = none) →
        (∀ t, t < j → w.childAlive t = true) →
        loopAttempt (w.health (j + 1)) = some kvs →
        (waitLoop w 0 30).1 = true
        ∧ (waitLoop w 0 30).2.1 = some ((dlookup kvs "username").getD (Json.str "unknown"))
        ∧ countEv isSleep (waitLoop w 0 30).2.2 = j
        ∧ countEv isProbe (waitLoop w 0 30).2.2 = j + 1)
    ∧ (∀ (w : World),
        (∀ t, t < 30 → loopAttempt (w.health (t + 1)) = none) →
        (∀ t, t < 30 → w.childAlive t = true) →
        (waitLoop w 0 30).1 = false
        ∧ Ev.printMsg "Gateway timed out waiting for ready" ∈ (waitLoop w 0 30).2.2
        ∧ countEv isProbe (waitLoop w 0 30).2.2 = 30) := by
  refine ⟨fun w i fuel => waitLoop_probe_bound w fuel i, ?_, ?_⟩
  · intro w j kvs hj hfail halive hsucc
    have hwl := waitLoop_success w j 0 30 kvs hj
      (fun t ht => by rw [show 0 + t + 1 = t + 1 by omega]; exact hfail t ht)
      (fun t ht => by rw [show 0 + t = t by omega]; exact halive t ht)
      (by rwa [show 0 + j + 1 = j + 1 by omega])
    rw [hwl]
    refine ⟨rfl, rfl, ?_, ?_⟩
    · simp [countEv_append, countSleep_failTrail, countEv, isSleep]
    · simp [countEv_append, countProbe_failTrail, countEv, isProbe]
  · intro w hfail halive
    have hwl := waitLoop_timeout w 30 0
      (fun t ht => by rw [show 0 + t + 1 = t + 1 by omega]; exact hfail t ht)
      (fun t ht => by rw [show 0 + t = t by omega]; exact halive t ht)
    rw [hwl]
    refine ⟨rfl, by simp, ?_⟩
    simp [countEv_append, countProbe_failTrail, countEv, isProbe]

/-- Witness for C7, the spec scenario: the probe succeeds on attempt 3
(loop iteration 2) with payload `{"status":"ok","username":"alice"}`;
the loop reports "alice" and slept once after each of attempts 1 and
2. -/
theorem readiness_wait_contract_witness :
    (waitLoop wAttempt3 0 30).1 = true
    ∧ (waitLoop wAttempt3 0 30).2.1 = some (Json.str "alice")
    ∧ countEv isSleep (waitLoop wAttempt3 0 30).2.2 = 2
    ∧ countEv isProbe (waitLoop wAttempt3 0 30).2.2 = 3 := by
  have h := readiness_wait_contract.2.1 wAttempt3 2 kvsAlice (by omega)
    (fun t ht => by
      have : t = 0 ∨ t = 1 := by omega
      rcases this with rfl | rfl <;> rfl)
    (fun t ht => rfl)
    (by rfl)
  exact ⟨h.1, h.2.1.trans (by rfl), h.2.2.1, h.2.2.2⟩

/-- C8: the gateway-call error contract.  Any status ≥ 400 yields the
structured failure carrying the numeric status and the raw body, for
both wrappers; a timeout yields the fixed text; a connection failure
yields the distinct text naming the gateway URL.  Both embedded
wrappers are total functions: no exception reaches the caller. -/
theorem gateway_error_contract :
    (∀ (st : Nat) (body : String), 400 ≤ st →
      gateway_get (.resp st body) = .failure (some st) body
      ∧ gateway_post (.resp st body) = .failure (some st) body)
    ∧ gateway_get .timeoutExc = .failure none "Gateway request timed out"
    ∧ gateway_post .timeoutExc = .failure none "Gateway request timed out"
    ∧ gateway_get .connectExc = .failure none ("Could not connect to gateway at " ++ GATEWAY_URL)
    ∧ gateway_post .connectExc = .failure none ("Could not connect to gateway at " ++ GATEWAY_URL) := by
  refine ⟨fun st body h => ⟨?_, ?_⟩, rfl, rfl, rfl, rfl⟩ <;>
    simp [gateway_get, gateway_post, h]

/-- Witness for C8: a 500 response with body "oops". -/
theorem gateway_error_contract_witness :
    gateway_get (.resp 500 "oops") = .failure (some 500) "oops"
    ∧ gateway_post (.resp 500 "oops") = .failure (some 500) "oops" :=
  gateway_error_contract.1 500 "oops" (by omega)

/-- C9: for any response body, a 204 status makes `gateway_post`
return success with a null payload (`Json.null` models Python None). -/
theorem gateway_post_204_success (body : String) :
    gateway_post (.resp 204 body) = .success Json.null := by
  simp [gateway_post]

/-- Auxiliary for C10: every all-dict thread list formats successfully,
entry for entry. -/
theorem mapM_formatThread_length :
    ∀ (l : List Json), (∀ t ∈ l, ∃ m, t = Json.obj m) →
    ∃ cs, l.mapM formatThread = some cs ∧ cs.length = l.length := by
  intro l
  induction l with
  | nil => exact fun _ => ⟨[], rfl, rfl⟩
  | cons t ts ih =>
    intro h
    obtain ⟨m, rfl⟩ := h t (List.mem_cons_self t ts)
    obtain ⟨cs, hcs, hlen⟩ := ih (fun x hx => h x (List.mem_cons_of_mem _ hx))
    obtain ⟨c, hc⟩ : ∃ c, formatThread (Json.obj m) = some c := ⟨_, rfl⟩
    refine ⟨c :: cs, ?_, by simp [hlen]⟩
    rw [List.mapM_cons, hc, hcs]
    rfl

/-- C10: for a non-negative limit and a successful `/threads` response
whose data holds a list of (dict) threads, `get_inbox` returns
`min limit (number of threads)` formatted conversations, and its
`count` field is by construction the length of that list. -/
theorem get_inbox_count (limit : Int) (h : 0 ≤ limit) (data : Json) (ts : List Json)
    (hth : jgetD data "threads" (Json.arr []) = some (Json.arr ts))
    (hobj : ∀ t ∈ ts, ∃ m, t = Json.obj m) :
    ∃ convs, get_inbox limit (GwRes.success data) = some (InboxOut.inbox convs.length convs)
      ∧ convs.length = min limit.toNat ts.length := by
  have hs : pySliceTo limit (Json.arr ts) = some (ts.take limit.toNat) := by
    simp [pySliceTo, h]
  obtain ⟨cs, hcs, hlen⟩ := mapM_formatThread_length (ts.take limit.toNat)
    (fun t htm => hobj t (List.take_subset _ _ htm))
  simp only [get_inbox, hth, hs, hcs]
  exact ⟨cs, rfl, by rw [hlen, List.length_take]⟩

/-- Witness for C10: three dict threads, limit 2 — two conversations
and `count = 2`. -/
theorem get_inbox_count_witness :
    ∃ convs, get_inbox 2 (GwRes.success dThreads) = some (InboxOut.inbox convs.length convs)
      ∧ convs.length = 2 := by
  obtain ⟨cs, h1, h2⟩ := get_inbox_count 2 (by omega) dThreads tsThreads rfl
    (by
      intro t ht
      simp only [tsThreads, List.mem_cons, List.not_mem_nil, or_false] at ht
      rcases ht with rfl | rfl | rfl
      · exact ⟨_, rfl⟩
      · exact ⟨_, rfl⟩
      · exact ⟨_, rfl⟩)
  exact ⟨cs, h1, by simpa using h2⟩
